import Mathlib

/-!
Shallow embedding of the hdcycles mesh synchronization pipeline (the
`mesh.cpp` translation unit and the `utils.cpp` helpers of this
repository): the typed attribute populators, the `HdCyclesMesh::Sync`
state machine, transform sampling, deform motion blur, and the
normal / texture-coordinate / color primvar handlers, together with
theorems checking the specified properties against this embedding.

Modelling conventions.  USD/Cycles float scalars are modelled as
rationals (`ℚ`) — every operation the verified claims touch (copies,
negation, comparison with zero) is exact on floats, so nothing is lost;
3-float vectors are `Vec3`; C++ arrays are `List`s.  Source arrays that
the C++ indexes without a bounds check are modelled either by total
index functions `Nat → α` or by `List.getD` with the element type's
zero as default; the claims carry the length hypotheses under which the
C++ access is in bounds.  Line references `part_000:NNN` point into the
repository source.
-/

namespace HdCycles

/-- A Cycles `float3` (and a `GfVec3f`): modelled with exact rationals. -/
abbrev Vec3 := ℚ × ℚ × ℚ

/-- Componentwise negation, `-n` on a `ccl::float3` (part_000:454). -/
def negV (v : Vec3) : Vec3 := (-v.1, -v.2.1, -v.2.2)

/-- Componentwise product of two `ccl::float3`. -/
def mulV (a b : Vec3) : Vec3 := (a.1 * b.1, a.2.1 * b.2.1, a.2.2 * b.2.2)

/-- Componentwise difference of two `ccl::float3`. -/
def subV (a b : Vec3) : Vec3 := (a.1 - b.1, a.2.1 - b.2.1, a.2.2 - b.2.2)

/-- Componentwise sum of two `ccl::float3`. -/
def addV (a b : Vec3) : Vec3 := (a.1 + b.1, a.2.1 + b.2.1, a.2.2 + b.2.2)

/-- Componentwise minimum (Cycles `BoundBox` grow). -/
def minV (a b : Vec3) : Vec3 := (min a.1 b.1, min a.2.1 b.2.1, min a.2.2 b.2.2)

/-- Componentwise maximum (Cycles `BoundBox` grow). -/
def maxV (a b : Vec3) : Vec3 := (max a.1 b.1, max a.2.1 b.2.1, max a.2.2 b.2.2)

/-- A `GfMatrix4d`: row-major 4x4 matrix of (exact) scalars. -/
abbrev Mat4 := Fin 4 → Fin 4 → ℚ

/-- A `ccl::Transform`: 3 rows of 4 scalars. -/
abbrev Transform := Fin 3 → Fin 4 → ℚ

/-- `ccl::transform_identity()`. -/
def transform_identity : Transform := fun r c => if (r : Nat) = (c : Nat) then 1 else 0

/-- Placeholder matrix used as `List.getD` default where the source reads
`xf.values.data()[i]` unconditionally; all claims keep such reads in bounds. -/
def matZero : Mat4 := fun _ _ => 0

/-- Source: `mat4d_to_transform` (part_000:1398-1419).  Row `r`, column `c`
of the output is `mat[c][r]` (the source reads the transpose). -/
def mat4d_to_transform (m : Mat4) : Transform :=
  fun r c => m c ⟨(r : Nat), by omega⟩

/-- `GfMatrix4d` multiplication (used to compose instance transforms,
part_000:1069). -/
def mat4Mul (a b : Mat4) : Mat4 := fun r c => ∑ k : Fin 4, a r k * b k c

/-- The identity `GfMatrix4d(1)` (part_000:1059). -/
def mat4Identity : Mat4 := fun r c => if (r : Nat) = (c : Nat) then 1 else 0

/-- Mesh winding orientation token (`HdTokens->leftHanded` vs right-handed). -/
inductive Orientation
  | rightHanded
  | leftHanded
  deriving DecidableEq, Repr

/-- Hydra interpolation classes (`HdInterpolation`). -/
inductive Interp
  | constant
  | uniform
  | varying
  | vertex
  | faceVarying
  | instanced
  deriving DecidableEq, Repr

/-- Primvar names the sync loop distinguishes (part_000:900-956);
`named` covers every other name. -/
inductive PvName
  | points
  | normals
  | velocities
  | displayColor
  | named (s : String)
  deriving DecidableEq, Repr

/-- Primvar roles the sync loop distinguishes (`HdPrimvarRoleTokens`). -/
inductive PvRole
  | normal
  | textureCoordinate
  | color
  | vector
  | noRole
  deriving DecidableEq, Repr

/-- A `VtValue` holding a typed array.  The C++ populators are one template
instantiated at 12 scalar/vector element types; the embedding keeps the
three element shapes the claims exercise (the other instantiations only
differ in the numeric conversion, which is value-preserving here). -/
inductive PvValue
  | empty
  | floats (l : List ℚ)
  | vec2s (l : List (ℚ × ℚ))
  | vec3s (l : List Vec3)
  deriving DecidableEq, Repr

/-- `VtValue::GetArraySize()`. -/
def PvValue.size : PvValue → Nat
  | .empty => 0
  | .floats l => l.length
  | .vec2s l => l.length
  | .vec3s l => l.length

/-- `value.IsHolding<VtVec3fArray>()`. -/
def PvValue.holdsVec3 : PvValue → Bool
  | .vec3s _ => true
  | _ => false

/-- The `VtVec3fArray` payload (meaningful under `holdsVec3`). -/
def PvValue.vec3Data : PvValue → List Vec3
  | .vec3s l => l
  | _ => []

/- ===== Attribute populators (utils.cpp) ===== -/

/-- Source: `_PopulateAttribte_Vertex` (part_000:1790-1806): one converted
element is written per source element (an empty array writes nothing and
reports failure, which coincides with the empty output here). -/
def PopulateAttribte_Vertex (conv : T → U) (data : List T) : List U :=
  data.map conv

/-- Source: `_PopulateAttribte_Uniform` (part_000:1808-1827): for source face
`i` the value is written `counts[i] - 2` times, where `counts` is
`mesh->GetFaceVertexCounts()`.  The C++ loops `i` over the source length and
reads `counts[i]`; the dispatch guard in `_PopulateAttribute` keeps the
source no longer than `counts`, which `List.zip` mirrors.  (For a face with
fewer than 2 corners the C++ loop bound underflows its unsigned comparison;
the claims carry the `3 ≤ count` well-formedness hypothesis.) -/
def PopulateAttribte_Uniform (conv : T → U) (counts : List Nat) (data : List T) : List U :=
  (data.zip counts).flatMap (fun p => List.replicate (p.2 - 2) (conv p.1))

/-- Corner indices of fan triangle `j` (`1 ≤ j ≤ c - 2`) of a face whose
corners start at `count = base` and which has `c = vCount` corners; mirrors
part_000:1848-1855 including the left-handed re-indexing. -/
def fanCorners (orientation : Orientation) (base c j : Nat) : Nat × Nat × Nat :=
  if orientation = .leftHanded then
    (base, base + (c - 1 - j), base + (c - 1 - j) + 1)
  else
    (base, base + j, base + j + 1)

/-- The three interleaved values written for one fan triangle of one face
(part_000:1857-1861). -/
def faceVaryingFace (conv : T → U) (orientation : Orientation) (data : Nat → T)
    (base c : Nat) : List U :=
  (List.range (c - 2)).flatMap (fun k =>
    [conv (data (fanCorners orientation base c (k + 1)).1),
     conv (data (fanCorners orientation base c (k + 1)).2.1),
     conv (data (fanCorners orientation base c (k + 1)).2.2)])

/-- The outer face loop of `_PopulateAttribte_FaceVarying` (part_000:1844-1864),
with `base` the running corner offset (`count` in the source). -/
def faceVaryingGo (conv : T → U) (orientation : Orientation) (data : Nat → T) :
    Nat → List Nat → List U
  | _, [] => []
  | base, c :: cs =>
    faceVaryingFace conv orientation data base c
      ++ faceVaryingGo conv orientation data (base + c) cs

/-- Source: `_PopulateAttribte_FaceVarying` (part_000:1829-1867).  The source
array is indexed by absolute corner number without a bounds check, hence the
total index function `data`. -/
def PopulateAttribte_FaceVarying (conv : T → U) (orientation : Orientation)
    (counts : List Nat) (data : Nat → T) : List U :=
  faceVaryingGo conv orientation data 0 counts

/-- Source: `_PopulateAttribte_Constant` (part_000:1869-1886): an array whose
size is not exactly 1 is reported ("incompatible size") and nothing is
written (`none`); otherwise the single converted element is written. -/
def PopulateAttribte_Constant (conv : T → U) (data : List T) : Option U :=
  if data.length ≠ 1 then none else (data.head?).map conv

/-- Outcome of `_PopulateAttribute` for one attribute: either data was
written, or the reason nothing was written (each non-`written` constructor
corresponds to one diagnostic in the source). -/
inductive PopOutcome
  | written (out : PvValue)
  | oversized        -- uniform data longer than the face-count array (part_000:1931-1934)
  | badSize          -- constant data with size ≠ 1 (part_000:1875-1879)
  | failedEmpty      -- empty source array: populator returns false, nothing written
  | unsupportedInterp  -- varying/instance interpolation (part_000:2040-2043)
  | unmatchedType    -- a VtValue holding none of the dispatched array types
  deriving DecidableEq, Repr

/-- Source: `_PopulateAttribute` (part_000:1889-2044) collapsed over the
payload shapes of `PvValue`; the numeric conversions (`to_cycles`) are
value-preserving on these payloads and appear as the identity. -/
def PopulateAttribute (interp : Interp) (counts : List Nat)
    (orientation : Orientation) (v : PvValue) : PopOutcome :=
  match interp with
  | .vertex =>
    match v with
    | .empty => .unmatchedType
    | .floats l => if l.length = 0 then .failedEmpty
        else .written (.floats (PopulateAttribte_Vertex id l))
    | .vec2s l => if l.length = 0 then .failedEmpty
        else .written (.vec2s (PopulateAttribte_Vertex id l))
    | .vec3s l => if l.length = 0 then .failedEmpty
        else .written (.vec3s (PopulateAttribte_Vertex id l))
  | .uniform =>
    if counts.length < v.size then .oversized
    else
      match v with
      | .empty => .unmatchedType
      | .floats l => if l.length = 0 then .failedEmpty
          else .written (.floats (PopulateAttribte_Uniform id counts l))
      | .vec2s l => if l.length = 0 then .failedEmpty
          else .written (.vec2s (PopulateAttribte_Uniform id counts l))
      | .vec3s l => if l.length = 0 then .failedEmpty
          else .written (.vec3s (PopulateAttribte_Uniform id counts l))
  | .faceVarying =>
    match v with
    | .empty => .unmatchedType
    | .floats l => if l.length = 0 then .failedEmpty
        else .written (.floats
          (PopulateAttribte_FaceVarying id orientation counts (fun n => l.getD n 0)))
    | .vec2s l => if l.length = 0 then .failedEmpty
        else .written (.vec2s
          (PopulateAttribte_FaceVarying id orientation counts (fun n => l.getD n (0, 0))))
    | .vec3s l => if l.length = 0 then .failedEmpty
        else .written (.vec3s
          (PopulateAttribte_FaceVarying id orientation counts (fun n => l.getD n (0, 0, 0))))
  | .constant =>
    match v with
    | .empty => .unmatchedType
    | .floats l =>
      match PopulateAttribte_Constant id l with
      | some x => .written (.floats [x])
      | none => .badSize
    | .vec2s l =>
      match PopulateAttribte_Constant id l with
      | some x => .written (.vec2s [x])
      | none => .badSize
    | .vec3s l =>
      match PopulateAttribte_Constant id l with
      | some x => .written (.vec3s [x])
      | none => .badSize
  | .varying => .unsupportedInterp
  | .instanced => .unsupportedInterp

/- ===== Topology and the refiner interface ===== -/

/-- One `HdGeomSubset`: a set of face indices bound to a material path
(materials are identified by numeric ids here; `none` is the empty path). -/
structure GeomSubset where
  materialId : Option Nat
  indices : List Nat
  deriving DecidableEq, Repr

/-- The topology snapshot (`HdMeshTopology`) fields the sync path reads. -/
structure MeshTopology where
  faceVertexCounts : List Nat
  faceVertexIndices : List Nat
  orientation : Orientation
  geomSubsets : List GeomSubset
  deriving DecidableEq, Repr

/-- Modelled from the spec: `HdCyclesMeshRefiner::RefinedCounts` lives in
meshRefiner.cpp, which is not part of these sources.  The spec's populator
contracts (uniform expansion by `counts[i] - 2`, face-varying walking "the
unrefined face-vertex structure") and its oversized-source rule ("uniform
data length exceeds the unrefined face count") read
`GetFaceVertexCounts()` (part_000:1127-1130) as the unrefined per-face
vertex counts, which this model adopts. -/
def RefinedCounts (t : MeshTopology) : List Nat := t.faceVertexCounts

/-- Modelled from the spec: number of triangles after pass-through fan
triangulation — an N-gon of size k contributes k-2 triangles. -/
def GetNumTriangles (t : MeshTopology) : Nat :=
  (t.faceVertexCounts.map (fun c => c - 2)).sum

/-- Face loop of the spec-modelled fan triangulation: triangle `j` of a
face is `(i0, ij, ij+1)` over the face's corner range. -/
def refinedIndicesGo (idx : Nat → Nat) : Nat → List Nat → List (Nat × Nat × Nat)
  | _, [] => []
  | base, c :: cs =>
    ((List.range (c - 2)).map (fun k => (idx base, idx (base + k + 1), idx (base + k + 2))))
      ++ refinedIndicesGo idx (base + c) cs

/-- Modelled from the spec: `HdCyclesMeshRefiner::RefinedIndices`
(meshRefiner.cpp, not in these sources) — pass-through right-handed fan
triangulation of the topology (spec section 8). -/
def RefinedIndices (t : MeshTopology) : List (Nat × Nat × Nat) :=
  refinedIndicesGo (fun n => t.faceVertexIndices.getD n 0) 0 t.faceVertexCounts

/-- Modelled from the spec: `HdCyclesMeshRefiner::RefineUniformData`
(meshRefiner.cpp, not in these sources) — per-face data expanded across the
fan triangles of each face, every triangle inheriting its source face's
value. -/
def RefineUniformData (t : MeshTopology) (data : List Nat) : List Nat :=
  PopulateAttribte_Uniform id t.faceVertexCounts data

/- ===== Renderer-side state ===== -/

/-- A `ccl::Shader*` as the sync path distinguishes them:
`scene->default_surface`, `param->default_vcol_surface`
(part_000:978-982), or a shader resolved from an `HdCyclesMaterial`. -/
inductive Shader
  | defaultSurface
  | vcolSurface
  | mat (id : Nat)
  deriving DecidableEq, Repr

/-- `ccl::PATH_RAY_ALL_VISIBILITY` (external renderer flag word; the sync
code only stores and zeroes it, so the exact bit pattern is immaterial). -/
def PATH_RAY_ALL_VISIBILITY : Nat := 1023

/-- One entry of a renderer mesh's attribute set, as mutated by this
translation unit.  Contents computed outside these sources (MikkTSpace
tangents, `add_face_normals`/`add_vertex_normals`) appear as markers. -/
inductive MeshAttr
  | vertexNormals (data : List Vec3)
  | faceNormalsStuck
      -- `_AddNormals` uniform branch with a face of ≥ 3 corners: the inner
      -- loop (part_000:440-442) increments `idx` but never `j` and does not
      -- terminate; this marker records that the source hangs here.
  | faceNormalsEmpty
      -- uniform branch where every face has ≤ 2 corners: the loop body
      -- never runs and the attribute stays unwritten.
  | recomputedNormals
      -- face-varying branch: `add_face_normals(); add_vertex_normals()`
      -- (part_000:464-465), computed by the renderer, contents external.
  | uvSet (nm : PvName) (res : PopOutcome)
  | tangents (nm : PvName)       -- mikk_compute_tangents output (external)
  | tangentSigns (nm : PvName)
  | colorAttr (nm : PvName) (res : PopOutcome)
  | motionPositions (data : List Vec3)
  | generatedCoords (data : List Vec3)
  deriving DecidableEq, Repr

/-- Whether an attribute entry is the motion-position attribute
(`ATTR_STD_MOTION_VERTEX_POSITION`). -/
def MeshAttr.isMotionPositions : MeshAttr → Bool
  | .motionPositions _ => true
  | _ => false

/-- The `ccl::Mesh` fields this translation unit mutates. -/
structure CyclesMesh where
  verts : List Vec3
  triangles : List ((Nat × Nat × Nat) × Nat)  -- vertex triple and shader index
  attrs : List MeshAttr
  usedShaders : List Shader
  useMotionBlur : Bool
  motionSteps : Nat
  subdParams : Bool                -- whether `subd_params` is allocated
  subdObjectToWorld : Option Transform
  deriving DecidableEq

/-- `ccl::Mesh::clear()` (external renderer call): geometry, attributes and
shader assignment reset; the motion-blur settings survive on the handle. -/
def CyclesMesh.clear (m : CyclesMesh) : CyclesMesh :=
  { m with verts := [], triangles := [], attrs := [], usedShaders := [] }

/-- The `ccl::Object` fields this translation unit mutates. -/
structure CyclesObject where
  tfm : Transform
  motion : List Transform
  passId : Int
  visibility : Nat
  color : Vec3
  deriving DecidableEq

/-- Source: `_CreateCyclesObject` (part_000:507-518); `Object::color`
defaults to zero in the renderer. -/
def CreateCyclesObject : CyclesObject :=
  { tfm := transform_identity
    motion := []
    passId := -1
    visibility := PATH_RAY_ALL_VISIBILITY
    color := (0, 0, 0) }

/- ===== mesh.cpp helpers ===== -/

/-- The vertex-interpolation branch of `_AddNormals` (part_000:445-456):
one normal per renderer mesh vertex, negated when the declared orientation
is left-handed.  `normals` is the source array, indexed without a bounds
check in the C++. -/
def AddNormals_Vertex (orientation : Orientation) (numVerts : Nat)
    (normals : Nat → Vec3) : List Vec3 :=
  (List.range numVerts).map (fun i =>
    if orientation = .leftHanded then negV (normals i) else normals i)

/-- Source: `_AddNormals` (part_000:425-488), dispatching on interpolation.
Uniform: the source loop at part_000:440-442 never increments `j`, so it
hangs whenever some face has ≥ 3 corners; otherwise it writes nothing.
Vertex: `AddNormals_Vertex`.  Face-varying: the per-corner path is
abandoned and face+vertex normals are recomputed by the renderer
(part_000:462-467).  Other interpolations fall through without writing. -/
def AddNormals (t : MeshTopology) (interp : Interp) (normals : List Vec3)
    (m : CyclesMesh) : CyclesMesh :=
  match interp with
  | .uniform =>
    if (RefinedCounts t).any (fun c => decide (3 ≤ c)) then
      { m with attrs := m.attrs ++ [.faceNormalsStuck] }
    else
      { m with attrs := m.attrs ++ [.faceNormalsEmpty] }
  | .vertex =>
    { m with attrs := m.attrs ++
        [.vertexNormals (AddNormals_Vertex t.orientation m.verts.length
          (fun i => normals.getD i (0, 0, 0)))] }
  | .faceVarying => { m with attrs := m.attrs ++ [.recomputedNormals] }
  | _ => m

/-- Source: `_AddUVSet` (part_000:227-268): the UV attribute is added and
populated through `_PopulateAttribute`; `need_tangent` and `need_sign` are
both forced `true` in the source, so MikkTSpace tangents and signs are
always computed and added. -/
def AddUVSet (nm : PvName) (uvs : PvValue) (interp : Interp) (t : MeshTopology)
    (m : CyclesMesh) : CyclesMesh :=
  { m with attrs := m.attrs ++
      [.uvSet nm (PopulateAttribute interp (RefinedCounts t) t.orientation uvs),
       .tangents nm, .tangentSigns nm] }

/-- The `displayColor` scalar written to `m_cyclesObject->color`
(part_000:398-421): element 0 of the array through `vecNf_to_float4`, then
its xyz.  (`vec1f_to_float4` splats the scalar; `vec2f_to_float4` pads z
with 0.) -/
def firstColorAsFloat3 : PvValue → Vec3
  | .floats l => ((l.getD 0 0), (l.getD 0 0), (l.getD 0 0))
  | .vec2s l => ((l.getD 0 (0, 0)).1, (l.getD 0 (0, 0)).2, 0)
  | .vec3s l => l.getD 0 (0, 0, 0)
  | .empty => (0, 0, 0)

/-- Source: `_AddColors` (part_000:332-423): an empty `VtValue` returns
immediately; otherwise the color attribute is added and populated, and a
constant-interpolation `displayColor` additionally sets the object's flat
color from element 0. -/
def AddColors (nm : PvName) (interp : Interp) (colors : PvValue)
    (t : MeshTopology) (m : CyclesMesh) (o : CyclesObject) :
    CyclesMesh × CyclesObject :=
  if colors = .empty then (m, o)
  else
    let m1 := { m with attrs := m.attrs ++
        [.colorAttr nm (PopulateAttribute interp (RefinedCounts t) t.orientation colors)] }
    if nm = .displayColor ∧ interp = .constant then
      (m1, { o with color := firstColorAsFloat3 colors })
    else
      (m1, o)

/-- The write loop of `_PopulateMotion` (part_000:563-573): samples are
visited in order, a sample whose time is exactly 0 is skipped (`continue`),
and every other sample contributes `m_numMeshVerts` positions. -/
def motionWriteLoop (numVerts : Nat) : List (ℚ × (Nat → Vec3)) → List Vec3
  | [] => []
  | s :: rest =>
    if s.1 = 0 then motionWriteLoop numVerts rest
    else ((List.range numVerts).map s.2) ++ motionWriteLoop numVerts rest

/-- Source: `_PopulateMotion` (part_000:537-574): with at most one point
sample nothing happens; otherwise motion blur is enabled, `motion_steps`
becomes `count + 1`, any existing motion-position attribute is removed and
a fresh one is written by `motionWriteLoop`. -/
def PopulateMotion (numVerts : Nat) (samples : List (ℚ × (Nat → Vec3)))
    (m : CyclesMesh) : CyclesMesh :=
  if samples.length ≤ 1 then m
  else
    { m with
      useMotionBlur := true
      motionSteps := samples.length + 1
      attrs := (m.attrs.filter (fun a => !a.isMotionPositions))
        ++ [.motionPositions (motionWriteLoop numVerts samples)] }

/-- Source: `_PopulateVertices` (part_000:520-535): the refined points are
appended with `add_vertex`, one per refined point.  The refinement of the
raw points (`RefineVertexData`, meshRefiner.cpp — not in these sources) is
received as `refinedPoints`. -/
def PopulateVertices (refinedPoints : List Vec3) (m : CyclesMesh) : CyclesMesh :=
  { m with verts := m.verts ++ refinedPoints }

/-- Source: `_PopulateFaces` (part_000:577-600): the refined triangle list is
emitted with per-triangle material ids from the uniform refinement of the
per-face material array, defaulting to 0 past its end. -/
def PopulateFaces (t : MeshTopology) (faceMaterials : List Nat)
    (m : CyclesMesh) : CyclesMesh :=
  let refined := RefinedIndices t
  let matIds := RefineUniformData t faceMaterials
  { m with triangles := m.triangles
      ++ refined.mapIdx (fun i tri => (tri, matIds.getD i 0)) }

/-- Source: `HdCyclesMeshTextureSpace` (part_000:1228-1244) on the mesh
bounds: returns `(loc, size)` with `size` the reciprocal half-extent
(axes of zero extent stay 0) and `loc` the offset. -/
def HdCyclesMeshTextureSpace (bmin bmax : Vec3) : Vec3 × Vec3 :=
  let loc0 := ((bmax.1 + bmin.1) / 2, (bmax.2.1 + bmin.2.1) / 2, (bmax.2.2 + bmin.2.2) / 2)
  let size0 := ((bmax.1 - bmin.1) / 2, (bmax.2.1 - bmin.2.1) / 2, (bmax.2.2 - bmin.2.2) / 2)
  let size : Vec3 :=
    (if size0.1 ≠ 0 then (1 / 2) / size0.1 else size0.1,
     if size0.2.1 ≠ 0 then (1 / 2) / size0.2.1 else size0.2.1,
     if size0.2.2 ≠ 0 then (1 / 2) / size0.2.2 else size0.2.2)
  (subV (mulV loc0 size) (1 / 2, 1 / 2, 1 / 2), size)

/-- `Mesh::compute_bounds()` grow over the vertex list (external renderer
call; an empty mesh keeps the renderer's sentinel bounds, modelled as the
origin — the generated loop below is empty in that case anyway). -/
def computeBounds (verts : List Vec3) : Vec3 × Vec3 :=
  match verts with
  | [] => ((0, 0, 0), (0, 0, 0))
  | v :: rest => (rest.foldl minV v, rest.foldl maxV v)

/-- Source: `_PopulateGenerated` (part_000:602-619): when the renderer
requests `ATTR_STD_GENERATED`, per-vertex generated coordinates
`vert * size - loc` are added. -/
def PopulateGenerated (needGenerated : Bool) (m : CyclesMesh) : CyclesMesh :=
  if needGenerated then
    let b := computeBounds m.verts
    let p := HdCyclesMeshTextureSpace b.1 b.2
    { m with attrs := m.attrs ++
        [.generatedCoords (m.verts.map (fun v => subV (mulV v p.2) p.1))] }
  else m

/-- Source: `_FinishMesh` (part_000:621-632): bounds are recomputed, then
generated coordinates are populated on demand. -/
def FinishMesh (needGenerated : Bool) (m : CyclesMesh) : CyclesMesh :=
  PopulateGenerated needGenerated m

/- ===== utils.cpp: HdCyclesSetTransform ===== -/

/-- Net effect of the time-0 scan loops in `HdCyclesSetTransform`
(part_000:1320-1325 and 1359-1363): the loop overwrites the transform at
every sample whose time is exactly 0, so its net result is the last such
sample, or nothing when no time is 0. -/
def scanTimeZero : List ℚ → List Mat4 → Option Mat4
  | t :: ts, v :: vs =>
    match scanTimeZero ts vs with
    | some m => some m
    | none => if t = 0 then some v else none
  | _, _ => none

/-- Which write the motion-array part of `HdCyclesSetTransform` performed. -/
inductive MotionBranch
  | noSamples       -- sampleCount == 0: tfm ← identity, motion untouched (part_000:1313-1316)
  | noMotion        -- use_motion false: motion untouched (part_000:1332-1334)
  | filledFromBase  -- geometry blurred but steps ≠ count: motion ← steps copies of the base tfm (part_000:1338-1342)
  | perStep         -- steps == count: motion ← one transform per sample (part_000:1348-1370)
  | clearedOnly     -- remaining case: motion cleared, nothing written
  deriving DecidableEq, Repr

/-- Result of `HdCyclesSetTransform` on the object and its geometry. -/
structure SetTfmResult where
  obj : CyclesObject
  geomUseMotionBlur : Bool
  branch : MotionBranch
  deriving DecidableEq

/-- Source: `HdCyclesSetTransform` (part_000:1300-1373).  The object here
always has geometry attached (`m_cyclesObject->geometry = m_cyclesMesh`,
part_000:118), so the null-geometry guards are satisfied.  `times`/`values`
are the resampled transform samples (`delegate->SampleTransform`). -/
def HdCyclesSetTransform (o : CyclesObject) (geomUseMotionBlur : Bool)
    (geomMotionSteps : Nat) (useMotion : Bool)
    (times : List ℚ) (values : List Mat4) : SetTfmResult :=
  let n := times.length
  if n = 0 then
    { obj := { o with tfm := transform_identity }
      geomUseMotionBlur := geomUseMotionBlur
      branch := .noSamples }
  else
    let base :=
      if 1 < n then
        match scanTimeZero times values with
        | some mz => mat4d_to_transform mz
        | none => mat4d_to_transform (values.headD matZero)
      else mat4d_to_transform (values.headD matZero)
    let o1 := { o with tfm := base }
    if ¬ useMotion then
      { obj := o1, geomUseMotionBlur := geomUseMotionBlur, branch := .noMotion }
    else
      let o2 := { o1 with motion := [] }
      if geomUseMotionBlur ∧ geomMotionSteps ≠ n then
        { obj := { o2 with motion := List.replicate geomMotionSteps base }
          geomUseMotionBlur := geomUseMotionBlur
          branch := .filledFromBase }
      else if geomMotionSteps = n then
        let tfmF :=
          match scanTimeZero times values with
          | some mz => mat4d_to_transform mz
          | none => base
        { obj := { o2 with tfm := tfmF, motion := values.map mat4d_to_transform }
          geomUseMotionBlur := true
          branch := .perStep }
      else
        { obj := o2, geomUseMotionBlur := geomUseMotionBlur, branch := .clearedOnly }

/- ===== The Sync state machine (HdCyclesMesh::Sync, part_000:634-1125) ===== -/

/-- The change-notification bitset consumed by one `Sync` call; per-primvar
dirtiness (`HdChangeTracker::IsPrimvarDirty`) is a function of the bitset
and the primvar name. -/
structure DirtyBits where
  topology : Bool
  subdivTags : Bool
  displayStyle : Bool
  doubleSided : Bool
  transform : Bool
  primId : Bool
  materialId : Bool
  visibility : Bool
  instancer : Bool
  primvarDirty : PvName → Bool

/-- The clean bitset (`HdChangeTracker::Clean`): every query is false. -/
def DirtyBits.clean : DirtyBits :=
  { topology := false, subdivTags := false, displayStyle := false
    doubleSided := false, transform := false, primId := false
    materialId := false, visibility := false, instancer := false
    primvarDirty := fun _ => false }

/-- One primvar descriptor plus its values as pulled from the delegate
during the sync: `value` is `GetPrimvar`'s result and `refined` is
`m_refiner->RefineData(value, interpolation)` — the refiner implementation
(meshRefiner.cpp) is not in these sources, so its output is an input of
the model.  Claims about the refinement-size checks quantify over it. -/
structure PrimvarDesc where
  name : PvName
  role : PvRole
  interp : Interp
  value : PvValue
  refined : PvValue
  deriving DecidableEq, Repr

/-- Externally observable renderer notifications and diagnostics emitted
during one `Sync` call. -/
inductive SyncEvent
  | shaderTagUpdate   -- shader->tag_update(scene)
  | meshTagUpdate     -- m_cyclesMesh->tag_update(scene, false)
  | objectTagUpdate   -- m_cyclesObject->tag_update(scene)
  | interrupt         -- param->Interrupt()
  | objectAdded       -- render param AddObject (instances)
  | objectRemoved     -- render param RemoveObject (instances)
  | codingWarning     -- TF_CODING_WARNING in the primvar loop
  deriving DecidableEq, Repr

/-- The `HdCyclesMesh` members (and owned renderer handles) that `Sync`
reads or writes. -/
structure SyncState where
  points : List Vec3
  numMeshVerts : Nat
  normalsValid : Bool
  adjacencyValid : Bool
  topology : MeshTopology
  refineLevel : Int
  displayStyle : Int
  doubleSided : Bool
  mesh : CyclesMesh
  obj : CyclesObject
  usedShaders : List Shader
  materialMap : List (Nat × Nat)
  cachedMaterialId : Option Nat
  transformTimes : List ℚ
  transformValues : List Mat4
  pointSamples : List (ℚ × (Nat → Vec3))
  hasVertexColors : Bool
  instances : List CyclesObject
  sharedVisible : Bool
  visibilityFlags : Nat
  useMotionBlur : Bool
  useDeformMotionBlur : Bool

/-- Everything `Sync` pulls from the scene delegate and render index in one
call.  Functions stand for delegate lookups whose implementations live
outside these sources (material resolution, time resampling). -/
structure SyncInputs where
  extCompPointsPresent : Bool
  extCompPointsValue : Option (List Vec3)
  topologyNew : MeshTopology
  displayStyleNew : Int
  doubleSidedNew : Bool
  primvarDescs : List PrimvarDesc
  refinedPoints : List Vec3
  transformTimes : List ℚ
  transformValues : List Mat4
  primId : Int
  materialId : Option Nat
  materialResolve : Nat → Option Shader
  visible : Bool
  instancerPresent : Bool
  instTimes : List ℚ
  instValues : List (List Mat4)
  protoResample : ℚ → Mat4
  needGenerated : Bool

/-- Accumulator of the per-primvar ingestion loop (part_000:898-958). -/
structure LoopAcc where
  mesh : CyclesMesh
  obj : CyclesObject
  hasVertexColors : Bool
  meshUpdated : Bool
  events : List SyncEvent

/-- One iteration of the primvar ingestion loop (part_000:900-956): skip
clean primvars; dispatch normals, velocities, texture coordinates and
colors; every other primvar falls through untouched.  The refined value
must be a nonempty `float3` array for normals; texture coordinates and
colors require the refined array to be at least as long as the source,
else a coding warning is emitted and the attribute is skipped. -/
def syncPrimvar (db : DirtyBits) (t : MeshTopology) (acc : LoopAcc)
    (d : PrimvarDesc) : LoopAcc :=
  if !(db.primvarDirty d.name) then acc
  else if d.name == .normals || d.role == .normal then
    if 0 < d.refined.size ∧ d.refined.holdsVec3 = true then
      { acc with mesh := AddNormals t d.interp d.refined.vec3Data acc.mesh
                 meshUpdated := true }
    else
      { acc with events := acc.events ++ [.codingWarning] }
  else if d.name == .velocities then acc
  else if d.role == .textureCoordinate then
    if d.value.size ≤ d.refined.size then
      { acc with mesh := AddUVSet d.name d.refined d.interp t acc.mesh
                 meshUpdated := true }
    else
      { acc with events := acc.events ++ [.codingWarning] }
  else if d.name == .displayColor || d.role == .color then
    let acc1 :=
      if d.value.size ≤ d.refined.size then
        let p := AddColors d.name d.interp d.refined t acc.mesh acc.obj
        { acc with mesh := p.1, obj := p.2 }
      else
        { acc with events := acc.events ++ [.codingWarning] }
    let acc2 :=
      if d.name == .displayColor then { acc1 with hasVertexColors := true } else acc1
    { acc2 with meshUpdated := true }
  else acc

/-- The primvar ingestion loop: a plain left-to-right traversal — no
iteration aborts the call, each primvar only `continue`s. -/
def syncPrimvarLoop (db : DirtyBits) (t : MeshTopology) :
    LoopAcc → List PrimvarDesc → LoopAcc
  | acc, [] => acc
  | acc, d :: rest => syncPrimvarLoop db t (syncPrimvar db t acc d) rest

/-- Accumulator of the geometry-subset material resolution loop
(part_000:864-889). -/
structure SubsetAcc where
  faceMaterials : List Nat
  usedShaders : List Shader
  materialMap : List (Nat × Nat)
  meshUsedShaders : List Shader
  events : List SyncEvent

/-- `m_materialMap` lookup. -/
def assocFind (m : List (Nat × Nat)) (k : Nat) : Option Nat :=
  (m.find? (fun p => p.1 == k)).map (fun p => p.2)

/-- One geometry subset (part_000:866-888): resolve its material to a
shader; a newly seen shader is appended to `m_usedShaders`, tag-updated,
and recorded in `m_materialMap` at index `size`; the subset's faces get
material index `max(subsetMaterialIndex - 1, 0)` (so unresolved subsets
fall back to 0). -/
def applySubset (resolve : Nat → Option Shader) (acc : SubsetAcc)
    (ss : GeomSubset) : SubsetAcc :=
  let step :=
    match ss.materialId with
    | none => (0, acc.usedShaders, acc.materialMap, acc.meshUsedShaders, acc.events)
    | some mid =>
      match resolve mid with
      | none => (0, acc.usedShaders, acc.materialMap, acc.meshUsedShaders, acc.events)
      | some sh =>
        match assocFind acc.materialMap mid with
        | none =>
          let us := acc.usedShaders ++ [sh]
          (us.length, us, acc.materialMap ++ [(mid, us.length)], us,
           acc.events ++ [SyncEvent.shaderTagUpdate])
        | some idx => (idx, acc.usedShaders, acc.materialMap, acc.usedShaders, acc.events)
  { faceMaterials := ss.indices.foldl (fun fm i => fm.set i (step.1 - 1)) acc.faceMaterials
    usedShaders := step.2.1
    materialMap := step.2.2.1
    meshUsedShaders := step.2.2.2.1
    events := step.2.2.2.2 }

/-- The subset loop over the topology (part_000:864-889), starting from a
zero-initialized per-face material array of length `GetNumFaces()`. -/
def resolveSubsets (t : MeshTopology) (resolve : Nat → Option Shader)
    (usedShaders : List Shader) (materialMap : List (Nat × Nat))
    (meshUsedShaders : List Shader) : SubsetAcc :=
  t.geomSubsets.foldl (applySubset resolve)
    { faceMaterials := List.replicate t.faceVertexCounts.length 0
      usedShaders := usedShaders
      materialMap := materialMap
      meshUsedShaders := meshUsedShaders
      events := [] }

/-- Source: the `DirtyMaterialId` branch of `Sync` (part_000:978-1017):
the fallback shader is the vertex-color-aware surface when
`m_hasVertexColors` is set, else the scene default; the bound material id
is cached; when the mesh has faces, the resolved shader — or the fallback
when the binding is empty or unresolved — is pushed onto `m_usedShaders`
and the list is re-applied to the mesh. -/
def syncMaterialId (inp : SyncInputs) (s : SyncState) :
    SyncState × List SyncEvent :=
  let fallbackShader := if s.hasVertexColors then Shader.vcolSurface else Shader.defaultSurface
  let s1 := { s with cachedMaterialId := inp.materialId }
  if 0 < (RefinedCounts s1.topology).length then
    match inp.materialId with
    | some mid =>
      match inp.materialResolve mid with
      | some sh =>
        let us := s1.usedShaders ++ [sh]
        ({ s1 with usedShaders := us, mesh := { s1.mesh with usedShaders := us } },
         [SyncEvent.shaderTagUpdate])
      | none =>
        let us := s1.usedShaders ++ [fallbackShader]
        ({ s1 with usedShaders := us, mesh := { s1.mesh with usedShaders := us } }, [])
    | none =>
      let us := s1.usedShaders ++ [fallbackShader]
      ({ s1 with usedShaders := us, mesh := { s1.mesh with usedShaders := us } }, [])
  else (s1, [])

/-- Working context of one `Sync` call: the primitive state plus the local
`mesh_updated` / `newMesh` flags and the emitted events. -/
structure SyncCtx where
  s : SyncState
  meshUpdated : Bool
  newMesh : Bool
  events : List SyncEvent

/-- Ext-computation points (part_000:654-679): the loop finds the first
descriptor named `points`; if it is dirty the computed value replaces the
cached points and marks a new mesh. -/
def syncExtComp (db : DirtyBits) (inp : SyncInputs) (c : SyncCtx) : SyncCtx :=
  if inp.extCompPointsPresent then
    if db.primvarDirty .points then
      let c1 := { c with meshUpdated := true }
      match inp.extCompPointsValue with
      | some pts =>
        { c1 with
          s := { c1.s with points := pts, numMeshVerts := pts.length, normalsValid := false }
          newMesh := true }
      | none => c1
    else c
  else c

/-- Topology snapshot and refiner rebuild (part_000:702-714): on
topology / subdiv-tags / display-style dirt the snapshot is replaced (the
refiner is a function of the snapshot here) and adjacency/normal caches
are invalidated. -/
def syncTopology (db : DirtyBits) (inp : SyncInputs) (c : SyncCtx) : SyncCtx :=
  if db.topology || db.subdivTags || db.displayStyle then
    { c with
      s := { c.s with topology := inp.topologyNew, adjacencyValid := false, normalsValid := false }
      newMesh := true }
  else c

/-- `DirtyDoubleSided` (part_000:730-733). -/
def syncDoubleSided (db : DirtyBits) (inp : SyncInputs) (c : SyncCtx) : SyncCtx :=
  if db.doubleSided then
    { c with meshUpdated := true, s := { c.s with doubleSided := inp.doubleSidedNew } }
  else c

/-- `DirtyDisplayStyle` (part_000:739-748): the style is stored and a
changed refine level marks a new mesh. -/
def syncDisplayStyle (db : DirtyBits) (inp : SyncInputs) (c : SyncCtx) : SyncCtx :=
  if db.displayStyle then
    let c1 := { c with meshUpdated := true, s := { c.s with displayStyle := inp.displayStyleNew } }
    if c.s.refineLevel ≠ inp.displayStyleNew then
      { c1 with s := { c1.s with refineLevel := inp.displayStyleNew }, newMesh := true }
    else c1
  else c

/-- The new-mesh block (part_000:861-963): clear the mesh, resolve subset
materials, populate faces and vertices, deform motion blur when enabled,
run the primvar ingestion loop, then re-apply `m_usedShaders` when
nonempty.  (The `USE_USD_CYCLES_SCHEMA` block, part_000:751-856, is
conditionally compiled and not part of the modelled build.) -/
def syncNewMeshBlock (db : DirtyBits) (inp : SyncInputs) (c : SyncCtx) : SyncCtx :=
  if c.newMesh then
    let s := c.s
    let m0 := s.mesh.clear
    let sub := resolveSubsets s.topology inp.materialResolve s.usedShaders s.materialMap m0.usedShaders
    let m1 := { m0 with usedShaders := sub.meshUsedShaders }
    let m2 := PopulateFaces s.topology sub.faceMaterials m1
    let m3 := PopulateVertices inp.refinedPoints m2
    let m4 := if s.useMotionBlur ∧ s.useDeformMotionBlur then
        PopulateMotion s.numMeshVerts s.pointSamples m3
      else m3
    let acc0 : LoopAcc :=
      { mesh := m4, obj := s.obj, hasVertexColors := s.hasVertexColors
        meshUpdated := c.meshUpdated, events := c.events ++ sub.events }
    let acc := syncPrimvarLoop db s.topology acc0 inp.primvarDescs
    let m5 := if 0 < sub.usedShaders.length then
        { acc.mesh with usedShaders := sub.usedShaders }
      else acc.mesh
    let s2 := { s with
      mesh := m5
      obj := acc.obj
      hasVertexColors := acc.hasVertexColors
      usedShaders := sub.usedShaders
      materialMap := sub.materialMap }
    { c with s := s2, meshUpdated := acc.meshUpdated, events := acc.events }
  else c

/-- `DirtyTransform` (part_000:965-976): resample and apply the transform,
keep the returned sample array, and mirror the base transform into the
subdivision parameters when allocated. -/
def syncTransformStep (db : DirtyBits) (inp : SyncInputs) (c : SyncCtx) : SyncCtx :=
  if db.transform then
    let r := HdCyclesSetTransform c.s.obj c.s.mesh.useMotionBlur c.s.mesh.motionSteps
      c.s.useMotionBlur inp.transformTimes inp.transformValues
    let mesh1 := { c.s.mesh with useMotionBlur := r.geomUseMotionBlur }
    let mesh2 := if mesh1.subdParams then { mesh1 with subdObjectToWorld := some r.obj.tfm }
      else mesh1
    let s2 := { c.s with
      obj := r.obj
      mesh := mesh2
      transformTimes := inp.transformTimes
      transformValues := inp.transformValues }
    { c with meshUpdated := true, s := s2 }
  else c

/-- `DirtyPrimID` (part_000:984-987): pass id is `primId + 1`. -/
def syncPrimId (db : DirtyBits) (inp : SyncInputs) (c : SyncCtx) : SyncCtx :=
  if db.primId then
    { c with s := { c.s with obj := { c.s.obj with passId := inp.primId + 1 } } }
  else c

/-- `DirtyMaterialId` wrapper around `syncMaterialId`. -/
def syncMaterialStep (db : DirtyBits) (inp : SyncInputs) (c : SyncCtx) : SyncCtx :=
  if db.materialId then
    let r := syncMaterialId inp c.s
    { c with s := r.1, events := c.events ++ r.2 }
  else c

/-- `DirtyVisibility` (part_000:1019-1022). -/
def syncVisibility (db : DirtyBits) (inp : SyncInputs) (c : SyncCtx) : SyncCtx :=
  if db.visibility then
    { c with meshUpdated := true, s := { c.s with sharedVisible := inp.visible } }
  else c

/-- New instance objects (part_000:1048-1098): one renderer object per
instance, transform composed from the prototype transform samples (unless
trivial) and the instancer's sample 0; only combined sample 0 feeds the
object transform (instance motion blur is commented out in the source). -/
def instanceObjects (trivialProto : Bool) (resample : ℚ → Mat4)
    (times : List ℚ) (values : List (List Mat4)) (n : Nat) : List CyclesObject :=
  (List.range n).map (fun i =>
    let v0 := (values.headD []).getD i matZero
    let combined0 := if trivialProto then v0 else mat4Mul (resample (times.headD 0)) v0
    { CreateCyclesObject with tfm := mat4d_to_transform combined0 })

/-- The point-instancing block (part_000:1027-1105): on new mesh or
instancer dirt, old instance objects are destroyed, new ones created from
the instancer samples, and the prototype is hidden while instances exist. -/
def syncInstancerStep (db : DirtyBits) (inp : SyncInputs) (c : SyncCtx) : SyncCtx :=
  if c.newMesh || db.instancer then
    let c1 := { c with meshUpdated := true }
    if inp.instancerPresent then
      let s := c1.s
      let count := inp.instTimes.length
      let newN := if 0 < count then (inp.instValues.headD []).length else 0
      let evRemoved := List.replicate s.instances.length SyncEvent.objectRemoved
      let s1 := { s with instances := [] }
      if newN ≠ 0 then
        let trivialProto := decide (s.transformTimes.length = 0
          ∨ (s.transformTimes.length = 1 ∧ s.transformValues.headD matZero = mat4Identity))
        let objs := instanceObjects trivialProto inp.protoResample inp.instTimes inp.instValues newN
        { c1 with
          s := { s1 with instances := objs, visibilityFlags := 0 }
          events := c1.events ++ evRemoved ++ List.replicate newN SyncEvent.objectAdded }
      else
        { c1 with s := s1, events := c1.events ++ evRemoved }
    else c1
  else c

/-- `_FinishMesh` on new mesh (part_000:1110-1112). -/
def syncFinish (inp : SyncInputs) (c : SyncCtx) : SyncCtx :=
  if c.newMesh then
    { c with s := { c.s with mesh := FinishMesh inp.needGenerated c.s.mesh } }
  else c

/-- The commit block (part_000:1114-1122): when anything changed, the
object's visibility word is pushed (zeroed while invisible), mesh and
object are tag-updated, and the render is interrupted. -/
def syncTag (c : SyncCtx) : SyncCtx :=
  if c.meshUpdated || c.newMesh then
    let vis := if c.s.sharedVisible then c.s.visibilityFlags else 0
    { c with
      s := { c.s with obj := { c.s.obj with visibility := vis } }
      events := c.events ++ [.meshTagUpdate, .objectTagUpdate, .interrupt] }
  else c

/-- Source: `HdCyclesMesh::Sync` (part_000:634-1125), as the composition of
its dirty-bit-conditioned steps in source order.  The returned event list
is everything the call pushed to the renderer; the dirty bitset is left
clean (part_000:1124). -/
def sync (db : DirtyBits) (inp : SyncInputs) (s : SyncState) :
    SyncState × List SyncEvent :=
  let c0 : SyncCtx := { s := s, meshUpdated := false, newMesh := false, events := [] }
  let c := syncTag (syncFinish inp (syncInstancerStep db inp (syncVisibility db inp
    (syncMaterialStep db inp (syncPrimId db inp (syncTransformStep db inp
    (syncNewMeshBlock db inp (syncDisplayStyle db inp (syncDoubleSided db inp
    (syncTopology db inp (syncExtComp db inp c0)))))))))))
  (c.s, c.events)

/- ===== Spec-comparison definitions ===== -/

/-- What the claim predicts for the left-handed face-varying output (this
definition follows the spec's words, for comparison with the translation of
the source): the right-handed output with the second and third corner of
every fan triangle swapped. -/
def swapTriangleCorners : List U → List U
  | a :: b :: c :: rest => a :: c :: b :: swapTriangleCorners rest
  | l => l

/-- One face of the amended left-handed description (this definition follows
the amended claim's words): the face's right-handed fan triangles emitted in
reverse order, each triangle's corner order unchanged. -/
def faceVaryingFaceLeftRev (conv : T → U) (data : Nat → T) (base c : Nat) : List U :=
  ((List.range (c - 2)).reverse).flatMap (fun k =>
    [conv (data base), conv (data (base + k + 1)), conv (data (base + k + 2))])

/-- Face loop of the amended left-handed description. -/
def faceVaryingLeftRevGo (conv : T → U) (data : Nat → T) : Nat → List Nat → List U
  | _, [] => []
  | base, c :: cs =>
    faceVaryingFaceLeftRev conv data base c ++ faceVaryingLeftRevGo conv data (base + c) cs

/-- The amended left-handed face-varying populate description. -/
def PopulateFaceVaryingLeftRevSpec (conv : T → U) (counts : List Nat)
    (data : Nat → T) : List U :=
  faceVaryingLeftRevGo conv data 0 counts

/-- Output offset of the first triangle of face `i` in the uniform
expansion: the triangles of earlier faces. -/
def uniformTriOffset (counts : List Nat) (i : Nat) : Nat :=
  ((counts.take i).map (fun c => c - 2)).sum

/- ===== Concrete fixtures for witnesses ===== -/

/-- A single-quad topology. -/
def topoW : MeshTopology := ⟨[4], [0, 1, 2, 3], .rightHanded, []⟩

/-- A fresh (cleared) renderer mesh. -/
def meshW : CyclesMesh := ⟨[], [], [], [], false, 0, false, none⟩

/-- A fresh primvar-loop accumulator. -/
def accW : LoopAcc := ⟨meshW, CreateCyclesObject, false, false, []⟩

/-- A bitset whose per-primvar query answers dirty for every name. -/
def dirtyAllPrimvars : DirtyBits :=
  { DirtyBits.clean with primvarDirty := fun _ => true }

/-- Delegate inputs with a bound material (id 7) that does not resolve. -/
def inpW : SyncInputs :=
  ⟨false, none, topoW, 0, false, [], [], [], [], 0, some 7, fun _ => none,
   true, false, [], [], fun _ => matZero, false⟩

/-- A primitive state that has seen a constant displayColor (the
vertex-color flag is set). -/
def stateW : SyncState :=
  ⟨[], 0, false, false, topoW, 0, 0, false, meshW, CreateCyclesObject, [], [],
   none, [], [], [], true, [], true, 0, false, false⟩

/- ===== Helper lemmas ===== -/

theorem getD_replicate_of_lt {x d : α} :
    ∀ (n k : Nat), k < n → (List.replicate n x).getD k d = x := by
  intro n
  induction n with
  | zero => intro k hk; exact absurd hk (Nat.not_lt_zero k)
  | succ m ih =>
    intro k hk
    cases k with
    | zero => rfl
    | succ j => exact ih j (by omega)

theorem range_flatMap_reflect (g : Nat → List U) :
    ∀ n, (List.range n).flatMap (fun k => g (n - 1 - k))
      = ((List.range n).reverse).flatMap g := by
  intro n
  induction n with
  | zero => rfl
  | succ m ih =>
    have hL : (List.range (m + 1)).flatMap (fun k => g (m + 1 - 1 - k))
        = g m ++ (List.range m).reverse.flatMap g := by
      rw [List.range_succ_eq_map, List.flatMap_cons, List.flatMap_map]
      have h0 : m + 1 - 1 - 0 = m := by omega
      rw [h0]
      congr 1
      rw [← ih]
      apply List.flatMap_congr
      intro a _
      congr 1
      omega
    have hR : ((List.range (m + 1)).reverse).flatMap g
        = g m ++ (List.range m).reverse.flatMap g := by
      rw [List.range_succ, List.reverse_append]
      simp [List.flatMap_append]
    rw [hL, hR]

theorem faceVaryingFace_leftHanded (conv : T → U) (data : Nat → T) (base c : Nat) :
    faceVaryingFace conv .leftHanded data base c
      = faceVaryingFaceLeftRev conv data base c := by
  unfold faceVaryingFace faceVaryingFaceLeftRev
  rw [← range_flatMap_reflect
    (fun k => [conv (data base), conv (data (base + k + 1)), conv (data (base + k + 2))]) (c - 2)]
  apply List.flatMap_congr
  intro k hk
  have hk' : k < c - 2 := List.mem_range.mp hk
  simp only [fanCorners, if_pos]
  have h1 : base + (c - 1 - (k + 1)) = base + (c - 2 - 1 - k) + 1 := by omega
  rw [h1]

theorem faceVaryingGo_leftHanded (conv : T → U) (data : Nat → T) :
    ∀ (counts : List Nat) (base : Nat),
      faceVaryingGo conv .leftHanded data base counts
        = faceVaryingLeftRevGo conv data base counts := by
  intro counts
  induction counts with
  | nil => intro base; rfl
  | cons c cs ih =>
    intro base
    simp [faceVaryingGo, faceVaryingLeftRevGo, faceVaryingFace_leftHanded, ih]

theorem length_flatMap_range_const (f : Nat → List U) (m : Nat)
    (hf : ∀ k, (f k).length = m) :
    ∀ n, ((List.range n).flatMap f).length = m * n := by
  intro n
  induction n with
  | zero => rfl
  | succ j ih =>
    rw [List.range_succ, List.flatMap_append, List.length_append, ih]
    simp [hf]
    rw [Nat.mul_succ]

theorem faceVaryingFace_length (conv : T → U) (o : Orientation) (data : Nat → T)
    (base c : Nat) : (faceVaryingFace conv o data base c).length = 3 * (c - 2) := by
  unfold faceVaryingFace
  apply length_flatMap_range_const
  intro k
  rfl

theorem faceVaryingGo_length (conv : T → U) (o : Orientation) (data : Nat → T) :
    ∀ (counts : List Nat) (base : Nat),
      (faceVaryingGo conv o data base counts).length
        = 3 * (counts.map (fun c => c - 2)).sum := by
  intro counts
  induction counts with
  | nil => intro base; rfl
  | cons c cs ih =>
    intro base
    simp [faceVaryingGo, List.length_append, faceVaryingFace_length, ih, Nat.mul_add]

theorem uniform_cons (conv : T → U) (c : Nat) (cs : List Nat) (a : T) (ds : List T) :
    PopulateAttribte_Uniform conv (c :: cs) (a :: ds)
      = List.replicate (c - 2) (conv a) ++ PopulateAttribte_Uniform conv cs ds := by
  simp [PopulateAttribte_Uniform]

theorem PopulateAttribte_Uniform_length (conv : T → U) :
    ∀ (data : List T) (counts : List Nat), data.length = counts.length →
      (PopulateAttribte_Uniform conv counts data).length
        = (counts.map (fun c => c - 2)).sum := by
  intro data
  induction data with
  | nil =>
    intro counts h
    cases counts with
    | nil => rfl
    | cons c cs => simp at h
  | cons a ds ih =>
    intro counts h
    cases counts with
    | nil => simp at h
    | cons c cs =>
      rw [uniform_cons, List.length_append, List.length_replicate,
        ih cs (by simpa using h)]
      simp

theorem PopulateAttribte_Uniform_getD (conv : T → U) (dT : T) (dU : U) :
    ∀ (counts : List Nat) (data : List T) (i t : Nat),
      data.length = counts.length → i < counts.length → t < counts.getD i 0 - 2 →
      (PopulateAttribte_Uniform conv counts data).getD (uniformTriOffset counts i + t) dU
        = conv (data.getD i dT) := by
  intro counts
  induction counts with
  | nil =>
    intro data i t hlen hi ht
    exact absurd hi (by simp)
  | cons c cs ih =>
    intro data i t hlen hi ht
    cases data with
    | nil => simp at hlen
    | cons a ds =>
      rw [uniform_cons]
      cases i with
      | zero =>
        have hoff : uniformTriOffset (c :: cs) 0 = 0 := rfl
        rw [hoff, Nat.zero_add]
        have htl : t < (List.replicate (c - 2) (conv a)).length := by
          rw [List.length_replicate]
          simpa using ht
        rw [List.getD_append _ _ _ _ htl,
          getD_replicate_of_lt _ _ (by simpa using htl)]
        rfl
      | succ j =>
        have hoff : uniformTriOffset (c :: cs) (j + 1)
            = (c - 2) + uniformTriOffset cs j := by
          simp [uniformTriOffset, List.take_succ_cons]
        rw [hoff]
        have hge : (List.replicate (c - 2) (conv a)).length
            ≤ (c - 2) + uniformTriOffset cs j + t := by
          rw [List.length_replicate]
          omega
        rw [List.getD_append_right _ _ _ _ hge]
        have hidx : (c - 2) + uniformTriOffset cs j + t
            - (List.replicate (c - 2) (conv a)).length = uniformTriOffset cs j + t := by
          rw [List.length_replicate]
          omega
        rw [hidx]
        exact ih ds j t (by simpa using hlen) (by simpa using hi) (by simpa using ht)

/- ===== Claim theorems ===== -/

/-- Claim C2 counterexample: on a single triangle face with three distinct
corner values, the left-handed face-varying output of the source equals
the right-handed output unchanged, not (as the claim predicts) the
right-handed output with corners 2 and 3 of the fan triangle swapped. -/
theorem faceVarying_swap_counterexample :
    ¬ (PopulateAttribte_FaceVarying (fun x => x) Orientation.leftHanded [3] (fun n => (n : ℚ))
       = swapTriangleCorners (PopulateAttribte_FaceVarying (fun x => x) Orientation.rightHanded [3]
           (fun n => (n : ℚ)))) := by
  decide

/-- Claim C2 (amended): for a declared left-handed orientation the
face-varying populator writes, for every polygon, the same fan triangles
as right-handed orientation but in reversed order within the face, each
triangle's corner order unchanged; and (either orientation) 3 interleaved
values are written per produced triangle. -/
theorem faceVarying_leftHanded_reversed_fans (conv : T → U) (counts : List Nat)
    (data : Nat → T) :
    PopulateAttribte_FaceVarying conv Orientation.leftHanded counts data
      = PopulateFaceVaryingLeftRevSpec conv counts data
    ∧ ∀ o, (PopulateAttribte_FaceVarying conv o counts data).length
        = 3 * (counts.map (fun c => c - 2)).sum := by
  refine ⟨faceVaryingGo_leftHanded conv data counts 0, fun o => ?_⟩
  exact faceVaryingGo_length conv o data counts 0

/-- Claim C3: a per-face source array of length `F = counts.length`
expands to exactly `T = Σ (counts i - 2)` output elements, and every
triangle produced from face `i` receives that face's original (converted)
value.  (`counts` is `GetFaceVertexCounts()`, spec-modelled as the
unrefined face-vertex counts; the `3 ≤ c` hypothesis is the N-gon
well-formedness the claim assumes.) -/
theorem uniform_populate_face_expansion (conv : T → U) (counts : List Nat)
    (data : List T) (dT : T) (dU : U)
    (hlen : data.length = counts.length) (hc : ∀ c ∈ counts, 3 ≤ c) :
    (PopulateAttribte_Uniform conv counts data).length
      = (counts.map (fun c => c - 2)).sum
    ∧ ∀ i t, i < counts.length → t < counts.getD i 0 - 2 →
        (PopulateAttribte_Uniform conv counts data).getD (uniformTriOffset counts i + t) dU
          = conv (data.getD i dT) := by
  refine ⟨PopulateAttribte_Uniform_length conv data counts hlen, fun i t hi ht => ?_⟩
  exact PopulateAttribte_Uniform_getD conv dT dU counts data i t hlen hi ht

/-- Witness for C3 on a quad-plus-triangle mesh: 2 faces of sizes 4 and 3
expand a 2-element source to 3 output elements, triangle 0 of face 1
receiving face 1's value. -/
theorem uniform_populate_face_expansion_witness :
    (PopulateAttribte_Uniform id [4, 3] [(10 : ℚ), 20]).length
      = ([4, 3].map (fun c => c - 2)).sum
    ∧ (PopulateAttribte_Uniform id [4, 3] [(10 : ℚ), 20]).getD
        (uniformTriOffset [4, 3] 1 + 0) (0 : ℚ) = id ([(10 : ℚ), 20].getD 1 (0 : ℚ)) :=
  ⟨(uniform_populate_face_expansion id [4, 3] [(10 : ℚ), 20] 0 0 (by decide) (by decide)).1,
   (uniform_populate_face_expansion id [4, 3] [(10 : ℚ), 20] 0 0 (by decide) (by decide)).2
     1 0 (by decide) (by decide)⟩

/-- Claim C4: a uniform-interpolation populate whose source array is longer
than the face-count array aborts with the "Oversized" diagnostic and
writes nothing (the `oversized` outcome carries no written data). -/
theorem uniform_oversized_aborts (counts : List Nat) (o : Orientation) (v : PvValue)
    (h : counts.length < v.size) :
    PopulateAttribute Interp.uniform counts o v = PopOutcome.oversized := by
  unfold PopulateAttribute
  simp [h]

/-- Witness for C4: 3 uniform values on a 2-face mesh. -/
theorem uniform_oversized_aborts_witness :
    ([2, 4].length < (PvValue.floats [1, 2, 3]).size)
    ∧ PopulateAttribute Interp.uniform [2, 4] Orientation.rightHanded (PvValue.floats [1, 2, 3])
      = PopOutcome.oversized :=
  ⟨by decide,
   uniform_oversized_aborts [2, 4] Orientation.rightHanded (PvValue.floats [1, 2, 3]) (by decide)⟩

/-- Claim C6: the constant-interpolation populator writes nothing (and
reports the incompatible size) unless the source array has exactly one
element, in which case exactly that one converted element is written. -/
theorem constant_populate_single_element (conv : T → U) (data : List T) :
    (data.length ≠ 1 → PopulateAttribte_Constant conv data = none)
    ∧ ∀ x, data = [x] → PopulateAttribte_Constant conv data = some (conv x) := by
  constructor
  · intro h
    simp [PopulateAttribte_Constant, h]
  · intro x h
    subst h
    simp [PopulateAttribte_Constant]

/-- Witness for C6: a two-element array is rejected; a one-element array
writes its converted element. -/
theorem constant_populate_single_element_witness :
    PopulateAttribte_Constant id [(2 : ℚ), 3] = none
    ∧ PopulateAttribte_Constant id [(5 : ℚ)] = some (id (5 : ℚ)) :=
  ⟨(constant_populate_single_element id [(2 : ℚ), 3]).1 (by decide),
   (constant_populate_single_element id [(5 : ℚ)]).2 5 rfl⟩

/-- Claim C10: the vertex-interpolation normals path writes exactly one
normal per renderer mesh vertex; each normal is negated when the declared
orientation is left-handed and written unchanged when right-handed. -/
theorem addNormals_vertex_orientation (o : Orientation) (n : Nat) (f : Nat → Vec3) :
    (AddNormals_Vertex o n f).length = n
    ∧ ∀ i, i < n → (AddNormals_Vertex o n f).getD i (0, 0, 0)
        = (if o = .leftHanded then negV (f i) else f i) := by
  constructor
  · simp [AddNormals_Vertex]
  · intro i hi
    unfold AddNormals_Vertex
    rw [List.getD_eq_getElem?_getD, List.getElem?_map, List.getElem?_range hi]
    rfl

/-- Witness for C10: vertex 1 of a 2-vertex left-handed mesh receives the
negated normal. -/
theorem addNormals_vertex_orientation_witness :
    (AddNormals_Vertex Orientation.leftHanded 2 (fun _ => ((5 : ℚ), 0, 0))).getD 1 (0, 0, 0)
      = (if Orientation.leftHanded = Orientation.leftHanded
         then negV ((5 : ℚ), 0, 0) else ((5 : ℚ), 0, 0)) :=
  (addNormals_vertex_orientation Orientation.leftHanded 2 (fun _ => ((5 : ℚ), 0, 0))).2
    1 (by decide)

theorem motionWriteLoop_eq_filter (numVerts : Nat) :
    ∀ samples : List (ℚ × (Nat → Vec3)),
      motionWriteLoop numVerts samples
        = (samples.filter (fun p => !(decide (p.1 = 0)))).flatMap
            (fun p => (List.range numVerts).map p.2) := by
  intro samples
  induction samples with
  | nil => rfl
  | cons s rest ih =>
    by_cases h : s.1 = 0
    · simp [motionWriteLoop, h, List.filter_cons, ih]
    · simp [motionWriteLoop, h, List.filter_cons, ih]

theorem motionWriteLoop_length (numVerts : Nat) :
    ∀ samples : List (ℚ × (Nat → Vec3)),
      (motionWriteLoop numVerts samples).length
        = (samples.filter (fun p => !(decide (p.1 = 0)))).length * numVerts := by
  intro samples
  induction samples with
  | nil => simp [motionWriteLoop]
  | cons s rest ih =>
    by_cases h : s.1 = 0
    · simp [motionWriteLoop, h, List.filter_cons, ih]
    · simp [motionWriteLoop, h, List.filter_cons, ih]
      ring

theorem filter_zero_length_complement (samples : List (ℚ × (Nat → Vec3))) :
    (samples.filter (fun p => !(decide (p.1 = 0)))).length
      = samples.length - (samples.filter (fun p => decide (p.1 = 0))).length := by
  induction samples with
  | nil => rfl
  | cons s rest ih =>
    have hle := List.length_filter_le (fun p => decide (p.1 = 0)) rest
    by_cases h : s.1 = 0
    · simp [List.filter_cons, h, ih]
    · simp [List.filter_cons, h, ih]
      omega

/-- Claim C7: deform motion blur populated from `N > 1` position samples
sets the renderer mesh motion-step count to `N + 1`; the write loop skips
exactly the samples at time 0, so with one time-0 sample the motion
attribute receives `(N - 1) * numVerts` positions — the time-0 positions
enter the mesh exactly once, through the base vertex population. -/
theorem populateMotion_steps_and_center (numVerts : Nat)
    (samples : List (ℚ × (Nat → Vec3))) (m : CyclesMesh)
    (h1 : 1 < samples.length)
    (h2 : (samples.filter (fun p => decide (p.1 = 0))).length = 1) :
    (PopulateMotion numVerts samples m).motionSteps = samples.length + 1
    ∧ (PopulateMotion numVerts samples m).useMotionBlur = true
    ∧ motionWriteLoop numVerts samples
        = (samples.filter (fun p => !(decide (p.1 = 0)))).flatMap
            (fun p => (List.range numVerts).map p.2)
    ∧ (motionWriteLoop numVerts samples).length = (samples.length - 1) * numVerts
    ∧ ∀ (pts : List Vec3) (mc : CyclesMesh), mc.verts = [] →
        (PopulateVertices pts mc).verts = pts := by
  have hnot : ¬ (samples.length ≤ 1) := by omega
  refine ⟨?_, ?_, motionWriteLoop_eq_filter numVerts samples, ?_, ?_⟩
  · simp [PopulateMotion, hnot]
  · simp [PopulateMotion, hnot]
  · rw [motionWriteLoop_length, filter_zero_length_complement, h2]
  · intro pts mc h
    simp [PopulateVertices, h]

/-- Witness for C7: three samples at times -1, 0, 1 over 2 vertices give
motion-step count 4 and (3 - 1) * 2 motion positions. -/
theorem populateMotion_steps_and_center_witness :
    (PopulateMotion 2 [((-1 : ℚ), fun _ => (1, 1, 1)), (0, fun _ => (2, 2, 2)),
        (1, fun _ => (3, 3, 3))] (CyclesMesh.mk [] [] [] [] false 0 false none)).motionSteps
      = 3 + 1
    ∧ (motionWriteLoop 2 [((-1 : ℚ), fun _ => (1, 1, 1)), (0, fun _ => (2, 2, 2)),
        (1, fun _ => (3, 3, 3))]).length = (3 - 1) * 2 :=
  ⟨(populateMotion_steps_and_center 2
      [((-1 : ℚ), fun _ => (1, 1, 1)), (0, fun _ => (2, 2, 2)), (1, fun _ => (3, 3, 3))]
      (CyclesMesh.mk [] [] [] [] false 0 false none) (by decide) (by decide)).1,
   (populateMotion_steps_and_center 2
      [((-1 : ℚ), fun _ => (1, 1, 1)), (0, fun _ => (2, 2, 2)), (1, fun _ => (3, 3, 3))]
      (CyclesMesh.mk [] [] [] [] false 0 false none) (by decide) (by decide)).2.2.2.1⟩

theorem scanTimeZero_isNone : ∀ (times : List ℚ) (values : List Mat4),
    (∀ j, j < times.length → times.getD j 1 ≠ 0) → scanTimeZero times values = none := by
  intro times
  induction times with
  | nil => intro values h; cases values <;> rfl
  | cons t ts ih =>
    intro values h
    cases values with
    | nil => rfl
    | cons v vs =>
      have htail : ∀ j, j < ts.length → ts.getD j 1 ≠ 0 := by
        intro j hj
        have := h (j + 1) (by simpa using Nat.succ_lt_succ hj)
        simpa using this
      have ht : t ≠ 0 := by
        have := h 0 (by simp)
        simpa using this
      simp [scanTimeZero, ih vs htail, ht]

theorem scanTimeZero_unique : ∀ (times : List ℚ) (values : List Mat4) (i : Nat),
    times.length = values.length → i < times.length → times.getD i 1 = 0 →
    (∀ j, j < times.length → times.getD j 1 = 0 → j = i) →
    scanTimeZero times values = some (values.getD i matZero) := by
  intro times
  induction times with
  | nil =>
    intro values i hlen hi hz huniq
    exact absurd hi (by simp)
  | cons t ts ih =>
    intro values i hlen hi hz huniq
    cases values with
    | nil => simp at hlen
    | cons v vs =>
      cases i with
      | zero =>
        have ht : t = 0 := by simpa using hz
        have htail : ∀ j, j < ts.length → ts.getD j 1 ≠ 0 := by
          intro j hj hz'
          have hj0 := huniq (j + 1) (by simpa using Nat.succ_lt_succ hj) (by simpa using hz')
          exact Nat.succ_ne_zero j hj0
        simp [scanTimeZero, scanTimeZero_isNone ts vs htail, ht]
      | succ j =>
        have hz' : ts.getD j 1 = 0 := by simpa using hz
        have hj' : j < ts.length := by
          have := hi
          simpa using Nat.lt_of_succ_lt_succ (by simpa using this)
        have huniq' : ∀ k, k < ts.length → ts.getD k 1 = 0 → k = j := by
          intro k hk hzk
          have := huniq (k + 1) (by simpa using Nat.succ_lt_succ hk) (by simpa using hzk)
          omega
        have hrec := ih vs j (by simpa using hlen) hj' hz' huniq'
        simp [scanTimeZero, hrec]

theorem setTransform_tfm_of_scan (o : CyclesObject) (gb : Bool) (gs : Nat) (um : Bool)
    (times : List ℚ) (values : List Mat4) (mz : Mat4)
    (hlen : times.length = values.length) (hn0 : ¬ times.length = 0)
    (hscan : scanTimeZero times values = some mz) :
    (HdCyclesSetTransform o gb gs um times values).obj.tfm = mat4d_to_transform mz := by
  have hmz1 : times.length = 1 → values.headD matZero = mz := by
    intro h1
    cases times with
    | nil => simp at h1
    | cons t ts =>
      cases values with
      | nil => simp at hlen
      | cons v vs =>
        have hts : ts = [] := List.length_eq_zero.mp (by simpa using h1)
        subst hts
        have hvs : vs = [] := by
          cases vs with
          | nil => rfl
          | cons w ws => simp at hlen
        subst hvs
        simp [scanTimeZero] at hscan
        by_cases ht : t = 0
        · simp [ht] at hscan
          simpa using hscan
        · simp [ht] at hscan
  unfold HdCyclesSetTransform
  rw [if_neg hn0]
  by_cases h1 : 1 < times.length
  · simp only [hscan, if_pos h1]
    split
    · rfl
    · split
      · rfl
      · split
        · simp [hscan]
        · rfl
  · have h1' : times.length = 1 := by omega
    simp only [hscan, if_neg h1]
    rw [hmz1 h1']
    split
    · rfl
    · split
      · rfl
      · split
        · simp [hscan, hmz1 h1']
        · rfl

theorem setTransform_tfm_of_scan_none (o : CyclesObject) (gb : Bool) (gs : Nat) (um : Bool)
    (times : List ℚ) (values : List Mat4)
    (hn0 : ¬ times.length = 0)
    (hscan : scanTimeZero times values = none) :
    (HdCyclesSetTransform o gb gs um times values).obj.tfm
      = mat4d_to_transform (values.headD matZero) := by
  unfold HdCyclesSetTransform
  rw [if_neg hn0]
  by_cases h1 : 1 < times.length
  · simp only [hscan, if_pos h1]
    split
    · rfl
    · split
      · rfl
      · split
        · simp [hscan]
        · rfl
  · simp only [hscan, if_neg h1]
    split
    · rfl
    · split
      · rfl
      · split
        · simp [hscan]
        · rfl

/-- Claim C8: on a transform-dirty sync the object's base transform comes
from the sample whose time is exactly 0 when exactly one such sample
exists among the resampled samples, and from the first sample when none
is; and the per-step motion transform array (one transform per sample) is
written exactly when motion blur is requested and the resampled sample
count equals the geometry's declared motion-step count. -/
theorem setTransform_center_and_motion (o : CyclesObject) (gb : Bool) (gs : Nat)
    (um : Bool) (times : List ℚ) (values : List Mat4)
    (hlen : times.length = values.length) (hn : 0 < times.length) :
    (∀ i, i < times.length → times.getD i 1 = 0 →
      (∀ j, j < times.length → times.getD j 1 = 0 → j = i) →
      (HdCyclesSetTransform o gb gs um times values).obj.tfm
        = mat4d_to_transform (values.getD i matZero))
    ∧ ((∀ j, j < times.length → times.getD j 1 ≠ 0) →
      (HdCyclesSetTransform o gb gs um times values).obj.tfm
        = mat4d_to_transform (values.headD matZero))
    ∧ ((HdCyclesSetTransform o gb gs um times values).branch = MotionBranch.perStep
        ↔ um = true ∧ gs = times.length)
    ∧ ((HdCyclesSetTransform o gb gs um times values).branch = MotionBranch.perStep →
      (HdCyclesSetTransform o gb gs um times values).obj.motion
        = values.map mat4d_to_transform) := by
  have hn0 : ¬ (times.length = 0) := by omega
  refine ⟨?_, ?_, ?_, ?_⟩
  · intro i hi hz huniq
    exact setTransform_tfm_of_scan o gb gs um times values _ hlen hn0
      (scanTimeZero_unique times values i hlen hi hz huniq)
  · intro hnz
    exact setTransform_tfm_of_scan_none o gb gs um times values hn0
      (scanTimeZero_isNone times values hnz)
  · unfold HdCyclesSetTransform
    rw [if_neg hn0]
    by_cases hum : um = true
    · by_cases hgs : gs = times.length
      · have hgb : ¬ (gb = true ∧ gs ≠ times.length) := fun h => h.2 hgs
        simp [hum, hgs, hgb]
      · by_cases hgb : gb = true
        · simp [hum, hgs, hgb]
        · simp [hum, hgs, hgb]
    · simp [hum]
  · unfold HdCyclesSetTransform
    rw [if_neg hn0]
    by_cases hum : um = true
    · by_cases hgs : gs = times.length
      · have hgb : ¬ (gb = true ∧ gs ≠ times.length) := fun h => h.2 hgs
        simp [hum, hgs, hgb]
      · by_cases hgb : gb = true
        · simp [hum, hgs, hgb]
        · simp [hum, hgs, hgb]
    · simp [hum]

/-- Witness for C8: samples at times -1, 0, 1 with the center sample as
base transform and the per-step branch taken (3 declared steps). -/
theorem setTransform_center_and_motion_witness :
    (HdCyclesSetTransform CreateCyclesObject false 3 true [(-1 : ℚ), 0, 1]
        [(fun _ _ => (5 : ℚ)), (fun _ _ => 7), (fun _ _ => 9)]).obj.tfm
      = mat4d_to_transform
          ([(fun _ _ => (5 : ℚ)), (fun _ _ => 7), (fun _ _ => 9)].getD 1 matZero)
    ∧ ((HdCyclesSetTransform CreateCyclesObject false 3 true [(-1 : ℚ), 0, 1]
        [(fun _ _ => (5 : ℚ)), (fun _ _ => 7), (fun _ _ => 9)]).branch = MotionBranch.perStep
        ↔ true = true ∧ 3 = [(-1 : ℚ), 0, 1].length) :=
  ⟨(setTransform_center_and_motion CreateCyclesObject false 3 true [(-1 : ℚ), 0, 1]
      [(fun _ _ => (5 : ℚ)), (fun _ _ => 7), (fun _ _ => 9)] (by decide) (by decide)).1
      1 (by decide) (by decide) (by decide),
   (setTransform_center_and_motion CreateCyclesObject false 3 true [(-1 : ℚ), 0, 1]
      [(fun _ _ => (5 : ℚ)), (fun _ _ => 7), (fun _ _ => 9)] (by decide) (by decide)).2.2.1⟩

/-- Claim C5 counterexample: a dirty vertex normals primvar whose refined
array (2 elements, `float3`) is shorter than its source (5 elements) is
*not* skipped with a warning — the sync path adds the normals attribute
and emits no warning, because the normals branch checks only for a
nonempty `float3` refined array, not for a refinement shortfall. -/
theorem refinement_shortfall_counterexample :
    (PvValue.vec3s [((1 : ℚ), 0, 0), (0, 1, 0)]).size
      < (PvValue.vec3s [((1 : ℚ), 0, 0), (0, 1, 0), (0, 0, 1), (1, 1, 0), (0, 1, 1)]).size
    ∧ (syncPrimvar dirtyAllPrimvars topoW accW
        (PrimvarDesc.mk .normals .normal .vertex
          (.vec3s [((1 : ℚ), 0, 0), (0, 1, 0), (0, 0, 1), (1, 1, 0), (0, 1, 1)])
          (.vec3s [((1 : ℚ), 0, 0), (0, 1, 0)]))).events = []
    ∧ (syncPrimvar dirtyAllPrimvars topoW accW
        (PrimvarDesc.mk .normals .normal .vertex
          (.vec3s [((1 : ℚ), 0, 0), (0, 1, 0), (0, 0, 1), (1, 1, 0), (0, 1, 1)])
          (.vec3s [((1 : ℚ), 0, 0), (0, 1, 0)]))).mesh.attrs ≠ [] := by
  refine ⟨by decide, by decide, by decide⟩

/-- Claim C5 (amended): during a new-mesh sync, a texture-coordinate or
color primvar whose refined array is shorter than its source is skipped
with a warning; a normals primvar is skipped with a warning exactly when
the refined array is empty or not a `float3` array (a nonempty `float3`
refined array is ingested even when shorter than the source); and the
ingestion loop always continues with the remaining primvars — no
refinement outcome aborts the sync. -/
theorem syncPrimvar_refinement_checks (db : DirtyBits) (t : MeshTopology)
    (acc : LoopAcc) (d : PrimvarDesc) (hdirty : db.primvarDirty d.name = true) :
    ((d.name == PvName.normals || d.role == PvRole.normal) = true →
      ¬ (0 < d.refined.size ∧ d.refined.holdsVec3 = true) →
      syncPrimvar db t acc d = { acc with events := acc.events ++ [.codingWarning] })
    ∧ ((d.name == PvName.normals || d.role == PvRole.normal) = true →
      (0 < d.refined.size ∧ d.refined.holdsVec3 = true) →
      syncPrimvar db t acc d
        = { acc with
            mesh := AddNormals t d.interp d.refined.vec3Data acc.mesh
            meshUpdated := true })
    ∧ ((d.name == PvName.normals || d.role == PvRole.normal) = false →
      (d.name == PvName.velocities) = false →
      (d.role == PvRole.textureCoordinate) = true →
      d.refined.size < d.value.size →
      syncPrimvar db t acc d = { acc with events := acc.events ++ [.codingWarning] })
    ∧ ((d.name == PvName.normals || d.role == PvRole.normal) = false →
      (d.name == PvName.velocities) = false →
      (d.role == PvRole.textureCoordinate) = false →
      (d.name == PvName.displayColor || d.role == PvRole.color) = true →
      d.refined.size < d.value.size →
      (syncPrimvar db t acc d).mesh = acc.mesh
      ∧ (syncPrimvar db t acc d).events = acc.events ++ [.codingWarning])
    ∧ (∀ rest, syncPrimvarLoop db t acc (d :: rest)
        = syncPrimvarLoop db t (syncPrimvar db t acc d) rest) := by
  refine ⟨?_, ?_, ?_, ?_, fun rest => rfl⟩
  · intro h1 h2
    simp [syncPrimvar, hdirty, h1, h2]
  · intro h1 h2
    simp [syncPrimvar, hdirty, h1, h2]
  · intro h1 hvel hrole hsize
    have hnle : ¬ (d.value.size ≤ d.refined.size) := by omega
    simp [syncPrimvar, hdirty, h1, hvel, hrole, hnle]
  · intro h1 hvel hrole hcol hsize
    have hnle : ¬ (d.value.size ≤ d.refined.size) := by omega
    by_cases hdc : (d.name == PvName.displayColor) = true
    · constructor <;> simp [syncPrimvar, hdirty, h1, hvel, hrole, hcol, hnle, hdc]
    · have hrc : (d.role == PvRole.color) = true := by simpa [hdc] using hcol
      constructor <;> simp [syncPrimvar, hdirty, h1, hvel, hrole, hcol, hnle, hdc, hrc]

/-- Witness for C5 (amended): a face-varying texture-coordinate primvar
refined from 4 to 2 elements is skipped with exactly one warning. -/
theorem syncPrimvar_refinement_checks_witness :
    syncPrimvar dirtyAllPrimvars topoW accW
      (PrimvarDesc.mk (.named "st") .textureCoordinate .faceVarying
        (.vec2s [((0 : ℚ), 0), (1, 0), (1, 1), (0, 1)]) (.vec2s [((0 : ℚ), 0), (1, 0)]))
      = { accW with events := accW.events ++ [.codingWarning] } :=
  (syncPrimvar_refinement_checks dirtyAllPrimvars topoW accW
    (PrimvarDesc.mk (.named "st") .textureCoordinate .faceVarying
      (.vec2s [((0 : ℚ), 0), (1, 0), (1, 1), (0, 1)]) (.vec2s [((0 : ℚ), 0), (1, 0)]))
    rfl).2.2.1 (by decide) (by decide) (by decide) (by decide)

/-- Claim C9: ingesting a dirty constant-interpolation `displayColor`
primvar sets the renderer object's flat color to the primvar's single
value and raises the vertex-color flag; on a state with that flag set, a
materialId-dirty sync whose bound material is present but unresolved
pushes the vertex-color-aware fallback shader (not the default surface)
onto the shader list. -/
theorem displayColor_constant_fallback_chain (db : DirtyBits) (t : MeshTopology)
    (acc : LoopAcc) (c : Vec3) (inp : SyncInputs) (mid : Nat)
    (hdirty : db.primvarDirty PvName.displayColor = true) :
    ((syncPrimvar db t acc
        (PrimvarDesc.mk .displayColor .color .constant (.vec3s [c]) (.vec3s [c]))).obj.color = c
    ∧ (syncPrimvar db t acc
        (PrimvarDesc.mk .displayColor .color .constant
          (.vec3s [c]) (.vec3s [c]))).hasVertexColors = true)
    ∧ (∀ s : SyncState, s.hasVertexColors = true →
        0 < (RefinedCounts s.topology).length →
        inp.materialId = some mid → inp.materialResolve mid = none →
        (syncMaterialId inp s).1.usedShaders = s.usedShaders ++ [Shader.vcolSurface]) := by
  constructor
  · constructor
    · simp [syncPrimvar, hdirty, AddColors, firstColorAsFloat3]
    · simp [syncPrimvar, hdirty]
  · intro s hvc hfaces hmid hres
    simp [syncMaterialId, hvc, hfaces, hmid, hres]

/-- Witness for C9: displayColor (1,0,0) lands in the object color and the
flag; the unresolved material (id 7) on `stateW` pushes the vertex-color
fallback. -/
theorem displayColor_constant_fallback_chain_witness :
    ((syncPrimvar dirtyAllPrimvars topoW accW
        (PrimvarDesc.mk .displayColor .color .constant
          (.vec3s [((1 : ℚ), 0, 0)]) (.vec3s [((1 : ℚ), 0, 0)]))).obj.color = ((1 : ℚ), 0, 0)
    ∧ (syncPrimvar dirtyAllPrimvars topoW accW
        (PrimvarDesc.mk .displayColor .color .constant
          (.vec3s [((1 : ℚ), 0, 0)]) (.vec3s [((1 : ℚ), 0, 0)]))).hasVertexColors = true)
    ∧ (syncMaterialId inpW stateW).1.usedShaders = stateW.usedShaders ++ [Shader.vcolSurface] :=
  ⟨(displayColor_constant_fallback_chain dirtyAllPrimvars topoW accW ((1 : ℚ), 0, 0)
      inpW 7 rfl).1,
   (displayColor_constant_fallback_chain dirtyAllPrimvars topoW accW ((1 : ℚ), 0, 0)
      inpW 7 rfl).2 stateW rfl (by decide) rfl rfl⟩

/-- Claim C1: a `Sync` call with the clean (no-op) dirty bitset leaves the
entire primitive state — renderer mesh, object, shader list, instances —
unchanged and emits no event: no tag_update, no interrupt, no object
churn.  In particular a second Sync immediately after any first one (which
leaves the bitset clean) produces zero additional renderer mutations. -/
theorem sync_clean_noop (inp : SyncInputs) (s : SyncState) :
    sync DirtyBits.clean inp s = (s, []) := by
  simp [sync, syncExtComp, syncTopology, syncDoubleSided, syncDisplayStyle,
    syncNewMeshBlock, syncTransformStep, syncPrimId, syncMaterialStep,
    syncVisibility, syncInstancerStep, syncFinish, syncTag, DirtyBits.clean]

end HdCycles
